import Mathlib

/-!
Verification development for the "Multimodal Storyteller" application
(`src/main.py`): a shallow embedding of its session-state-driven narrative
state machine (stages `world_forge`, `story_start`, `story_cycle`), its
narrative/illustration service adapters, and its text-to-speech escaping,
together with theorems about the embedded definitions.

External services (the Gemini text backend, the Stability image backend,
the JSON decoder `json.loads`) are modelled as parameters of an
environment record; the glue code around them is translated directly
from the source.
-/

namespace Storyteller

/-! ### Characters used in string-level reasoning -/

/-- The backslash character. -/
def bs : Char := '\\'

/-- The single-quote character (code 39). -/
def sq : Char := Char.ofNat 39

/-- The double-quote character (code 34). -/
def dq : Char := Char.ofNat 34

/-- The backtick character (code 96), used by markdown code fences. -/
def btick : Char := Char.ofNat 96

/-- A one-character string holding a single quote. -/
def sqS : String := String.mk [sq]

/-! ### Python string primitives

`str.replace(old, new)` replaces every non-overlapping occurrence of
`old`, scanning left to right, and does not rescan the replacement text.
`str.strip()` removes whitespace from both ends.  Both are modelled on
`List Char`; the `old` pattern is passed as a nonempty list `o :: os`
(every call site in the source uses a nonempty pattern). -/

/-- `leadsWith pat l` is true when `pat` is an initial segment of `l`. -/
def leadsWith : List Char → List Char → Bool
  | [], _ => true
  | _ :: _, [] => false
  | p :: ps, c :: cs => p == c && leadsWith ps cs

/-- Worker for `pyReplace`, structurally recursive on a fuel bound (one
unit of fuel is spent per consumed head character, so `l.length` fuel
always suffices; the `0, l => l` row is never reached from `pyReplace`). -/
def pyReplaceFuel (o : Char) (os new : List Char) : Nat → List Char → List Char
  | _, [] => []
  | 0, l => l
  | fuel + 1, c :: cs =>
    if leadsWith (o :: os) (c :: cs) then
      new ++ pyReplaceFuel o os new fuel (cs.drop os.length)
    else
      c :: pyReplaceFuel o os new fuel cs

/-- Python `str.replace` for a nonempty pattern `o :: os`, on char lists:
replace each leftmost occurrence and continue after the replacement. -/
def pyReplace (o : Char) (os new : List Char) (l : List Char) : List Char :=
  pyReplaceFuel o os new l.length l

/-- Python `str.replace` lifted to `String` (identity on an empty pattern,
which no call site uses). -/
def pyReplaceStr (old new s : String) : String :=
  match old.toList with
  | [] => s
  | o :: os => String.mk (pyReplace o os new.toList s.toList)

/-- Python `str.strip()` on char lists: drop whitespace from both ends. -/
def pyStripList (l : List Char) : List Char :=
  ((l.dropWhile Char.isWhitespace).reverse.dropWhile Char.isWhitespace).reverse

/-- Python `str.strip()` on `String`. -/
def pyStrip (s : String) : String := String.mk (pyStripList s.toList)

/-- Python `" ".join(...)` over a list of strings. -/
def joinSp (l : List String) : String := String.intercalate (" ") l

/-! ### Data model (session state, `src/main.py` lines 216-220) -/

/-- A decoded raster image (`PIL.Image`); its content is opaque here. -/
structure PILImage where
  data : String
deriving DecidableEq

/-- One story chapter: `{"text": ..., "image": ...}` dictionaries appended
to `st.session_state.story_chapters`. -/
structure Chapter where
  text : String
  image : Option PILImage
deriving DecidableEq

/-- The structured record the narrative backend is asked to return:
a JSON object with exactly the keys `narrative_chapter`, `next_choices`
and `image_prompt`. -/
structure ChapterResponse where
  narrative_chapter : String
  next_choices : List String
  image_prompt : String
deriving DecidableEq

/-- The session story state: `app_stage`, `world_bible`,
`story_chapters`, `latest_choices` (lines 216-220). -/
structure StoryState where
  app_stage : String
  world_bible : Option String
  story_chapters : List Chapter
  latest_choices : List String
deriving DecidableEq

/-- The initialization performed when `app_stage` is absent from the
session (lines 216-220). -/
def initial_state : StoryState :=
  { app_stage := ("world_forge"), world_bible := none,
    story_chapters := [], latest_choices := [] }

/-- Python `str(...)` rendering of an optional string inside an f-string:
`None` renders as the text `"None"`. -/
def optStr : Option String → String
  | some s => s
  | none => ("None")

/-! ### Prompt builder (`generate_story_chapter`, lines 122-131)

The f-string template is transcribed literally; the three interpolation
holes become the three arguments. -/

/-- Template text before the `user_choice` hole. -/
def prompt_part1 : String :=
  ("\n    You are a multi-persona Storytelling Engine. Follow these steps precisely.\n    The user") ++ sqS ++
  ("s choice for the last chapter was: \"")

/-- Template text between the `user_choice` and `story_context` holes. -/
def prompt_part2 : String :=
  ("\".\n    The full story context so far is: \"")

/-- Template text between the `story_context` and `world_bible` holes. -/
def prompt_part3 : String :=
  ("\".\n    The secret World Bible for this universe is: \"")

/-- Template text after the `world_bible` hole. -/
def prompt_part4 : String :=
  ("\".\n\n    Step 1: Act as a Literary Artist. Write a rich, descriptive paragraph expanding on the user") ++ sqS ++
  ("s choice.\n    Step 2: Act as a Plot Theorist. Based on the new paragraph, generate three distinct, single-sentence plot choices for the user. One must be a ") ++ sqS ++
  ("Wildcard") ++ sqS ++
  (".\n    Step 3: Act as an Art Director. Based on the paragraph from Step 1, write a concise, descriptive prompt for an AI image generator (comma-separated keywords).\n    Step 4: Format your entire response as a single, raw JSON object with NO markdown formatting, using these exact keys: \"narrative_chapter\", \"next_choices\", and \"image_prompt\".\n    ")

/-- The prompt built by `generate_story_chapter` (lines 122-131). -/
def chapter_prompt (user_choice story_context world_bible : String) : String :=
  prompt_part1 ++ user_choice ++ prompt_part2 ++ story_context ++
    prompt_part3 ++ world_bible ++ prompt_part4

/-! ### Narrative service adapter (`generate_story_chapter`, lines 118-142) -/

/-- What `model.generate_content(prompt, ...)` does on a given call:
either it raises an exception, or it returns a response object whose
`.text` is the given string. -/
inductive GenOutcome where
  | raised
  | returned (text : String)

/-- A Python exception escaping the handler.  `unboundLocal n` models the
`UnboundLocalError` raised when the local variable named `n` is read
before assignment. -/
inductive PyExn where
  | unboundLocal (n : String)
deriving DecidableEq

/-- The observable result of `generate_story_chapter`:
`ok data` — the cleaned reply parsed, `data` is returned;
`failed raw` — a reply with text `raw` was received but parsing raised,
the handler displays the error and the raw text and returns `None`;
`uncaught e` — the `try` body raised before `response` was bound, and the
handler itself raised `e` when evaluating `response.text`. -/
inductive GenResult where
  | ok (data : ChapterResponse)
  | failed (raw : String)
  | uncaught (e : PyExn)
deriving DecidableEq

/-- A record of one request to the narrative backend: the three arguments
and the prompt built from them. -/
structure GenCall where
  story_context : String
  world_bible : String
  user_choice : String
  prompt : String
deriving DecidableEq

/-- Return value, backend request and displayed diagnostics of one
`generate_story_chapter` call. -/
structure GenOut where
  result : GenResult
  call : GenCall
  displayed : List String
deriving DecidableEq

/-- Line 136: `response.text.strip().replace("```json", "").replace("```", "").strip()`. -/
def clean_json_string (raw : String) : String :=
  pyStrip (pyReplaceStr ("```") ("") (pyReplaceStr ("```json") ("") (pyStrip raw)))

/-- The opening markdown fence `"```json"` as a char list. -/
def fo_list : List Char := [btick, btick, btick, 'j', 's', 'o', 'n']

/-- The closing markdown fence `"```"` as a char list. -/
def fc_list : List Char := [btick, btick, btick]

/-- The fixed part of the `st.error` diagnostic on line 140. -/
def gen_error_msg : String :=
  ("Error processing AI response. The AI may have returned an unexpected format.")

/-- `generate_story_chapter(story_context, world_bible, user_choice)`
(lines 118-142).  `backend` models `model.generate_content` and `parse`
models `json.loads` restricted to well-keyed chapter objects.  When the
backend call itself raises, the `except` handler runs `st.error(...)` and
then evaluates `response.text` with `response` unbound, so an
`UnboundLocalError` escapes instead of the `return None` recovery. -/
def generate_story_chapter (backend : String → GenOutcome)
    (parse : String → Option ChapterResponse)
    (story_context world_bible user_choice : String) : GenOut :=
  let prompt := chapter_prompt user_choice story_context world_bible
  let call : GenCall :=
    { story_context := story_context, world_bible := world_bible,
      user_choice := user_choice, prompt := prompt }
  match backend prompt with
  | GenOutcome.raised =>
      { result := GenResult.uncaught (PyExn.unboundLocal ("response")),
        call := call, displayed := [gen_error_msg] }
  | GenOutcome.returned raw =>
      match parse (clean_json_string raw) with
      | some data => { result := GenResult.ok data, call := call, displayed := [] }
      | none =>
          { result := GenResult.failed raw, call := call,
            displayed := [gen_error_msg, raw] }

/-! ### Illustration service adapter (`generate_image_stability`, lines 145-191) -/

/-- What the Stability call does: the key may be missing (line 147),
`raise_for_status` may raise an `HTTPError` (line 173), extracting
`artifacts[0].base64` may raise `KeyError`/`IndexError` (line 183), any
other exception may occur (line 189), or a decoded image is produced. -/
inductive ImgOutcome where
  | unconfigured
  | httpError (status : Nat) (body : String)
  | missingArtifact
  | otherException (msg : String)
  | ok (img : PILImage)
deriving DecidableEq

/-- `generate_image_stability(prompt)` as a function of the call outcome:
every failure branch displays diagnostics and returns `None`; only a
successful decode returns an image. -/
def generate_image_stability : ImgOutcome → Option PILImage
  | ImgOutcome.unconfigured => none
  | ImgOutcome.httpError _ _ => none
  | ImgOutcome.missingArtifact => none
  | ImgOutcome.otherException _ => none
  | ImgOutcome.ok img => some img

/-! ### Narration adapter (`text_to_speech_player`, lines 194-206) -/

/-- The three replacements of line 196: escape every single quote, escape
every double quote, then turn newlines into spaces. -/
def tts_replace_chain (text : List Char) : List Char :=
  pyReplace ('\n') [] [' ']
    (pyReplace dq [] [bs, dq]
      (pyReplace sq [] [bs, sq] text))

/-- Line 196: `text.replace("'", "\\'").replace('"', '\\"').replace("\n", " ").strip()`,
the escaping applied before the text is embedded into the script string. -/
def tts_safe_text_list (text : List Char) : List Char :=
  pyStripList (tts_replace_chain text)

/-- String-level wrapper for the text-to-speech escaping. -/
def tts_safe_text (text : String) : String :=
  String.mk (tts_safe_text_list text.toList)

/-! ### Session state machine (lines 216-292)

A submission handler runs inside one Streamlit rerun.  Mutations of
`st.session_state` performed before an uncaught exception persist, so a
handler is modelled as a function from the pre-state to the post-state
plus an outcome tag and the list of narrative-backend requests it made. -/

/-- The external world one submission runs against: the narrative
backend, the JSON decoder, and the Stability backend (keyed by the image
prompt sent to it). -/
structure Env where
  backend : String → GenOutcome
  parse : String → Option ChapterResponse
  stability : String → ImgOutcome

/-- How a submission ended: full success, narrative generation returned
`None`, an exception escaped the handler, or nothing ran (guard false). -/
inductive SubmitOutcome where
  | success
  | genFailed
  | crashed
  | noOp
deriving DecidableEq

/-- Post-state, outcome and narrative-backend requests of one submission. -/
structure SubmitResult where
  state : StoryState
  outcome : SubmitOutcome
  calls : List GenCall

/-- The world-forge form handler (lines 231-234), given the text the
world-bible generator returned: store it and advance the stage. -/
def world_forge_submit (bible : String) (s : StoryState) : StoryState :=
  { s with world_bible := some bible, app_stage := ("story_start") }

/-- Line 248: `st.session_state.story_chapters[0]["image"] = new_image`
sets the image of the chapter at index 0.  (The list is never empty at
the call site, so the Python `IndexError` case does not arise.) -/
def set_first_image (img : Option PILImage) : List Chapter → List Chapter
  | [] => []
  | c :: cs => { c with image := img } :: cs

/-- Lines 246-252, applied to the state `s1` that already holds the
appended opening chapter and to the finished narrative call `g`
(lines 247-251: fetch illustration, store it on the chapter at index 0,
append the generated chapter, replace choices, advance the stage). -/
def start_apply (env : Env) (s1 : StoryState) (g : GenOut) : SubmitResult :=
  match g.result with
  | GenResult.uncaught _ =>
      { state := s1, outcome := SubmitOutcome.crashed, calls := [g.call] }
  | GenResult.failed _ =>
      { state := s1, outcome := SubmitOutcome.genFailed, calls := [g.call] }
  | GenResult.ok data =>
      let new_image := generate_image_stability (env.stability data.image_prompt)
      let s2 : StoryState :=
        { s1 with story_chapters := set_first_image new_image s1.story_chapters }
      { state :=
          { s2 with
            story_chapters := s2.story_chapters ++
              [{ text := data.narrative_chapter, image := none }],
            latest_choices := data.next_choices,
            app_stage := ("story_cycle") },
        outcome := SubmitOutcome.success, calls := [g.call] }

/-- The story-start form handler (lines 243-252).  The guard
`... and initial_prompt` makes an empty opening sentence a no-op.
Otherwise the opening chapter is appended FIRST (line 244), then the
narrative backend is called; only on success are the illustration
fetched, the generated chapter appended, the choices replaced and the
stage advanced.  On failure (`ai_response` is `None`) or on an uncaught
exception the state keeps the already-appended opening chapter. -/
def story_start_submit (env : Env) (initial_prompt : String)
    (s : StoryState) : SubmitResult :=
  if initial_prompt = ("") then
    { state := s, outcome := SubmitOutcome.noOp, calls := [] }
  else
    start_apply env
      { s with story_chapters :=
          s.story_chapters ++ [{ text := initial_prompt, image := none }] }
      (generate_story_chapter env.backend env.parse ("")
        (optStr s.world_bible) initial_prompt)

/-- Lines 278-283, applied to the pre-state `s` and the finished
narrative call `g`: on success fetch the illustration, append the new
chapter carrying it, and replace the choices; the stage stays
`story_cycle` (self-loop). -/
def cycle_apply (env : Env) (s : StoryState) (g : GenOut) : SubmitResult :=
  match g.result with
  | GenResult.uncaught _ =>
      { state := s, outcome := SubmitOutcome.crashed, calls := [g.call] }
  | GenResult.failed _ =>
      { state := s, outcome := SubmitOutcome.genFailed, calls := [g.call] }
  | GenResult.ok data =>
      let new_image := generate_image_stability (env.stability data.image_prompt)
      { state :=
          { s with
            story_chapters := s.story_chapters ++
              [{ text := data.narrative_chapter, image := new_image }],
            latest_choices := data.next_choices },
        outcome := SubmitOutcome.success, calls := [g.call] }

/-- The choice form handler (lines 271-283).  The form is only rendered
when `latest_choices` is nonempty (line 271), and the radio widget
(line 273) can only yield one of `latest_choices`; the selection is
modelled as an index, out-of-range defaulting to the first option.
`story_so_far` is `" ".join` of all chapter texts (line 275). -/
def story_cycle_submit (env : Env) (selection : Nat)
    (s : StoryState) : SubmitResult :=
  match s.latest_choices with
  | [] => { state := s, outcome := SubmitOutcome.noOp, calls := [] }
  | c0 :: rest =>
    cycle_apply env s
      (generate_story_chapter env.backend env.parse
        (joinSp (s.story_chapters.map Chapter.text))
        (optStr s.world_bible) ((c0 :: rest).getD selection c0))

/-! ### Restart (lines 286-292) and session-key lifecycle (lines 216-220)

The restart button deletes the four story session keys; the next rerun
finds `app_stage` absent and reinitializes all four.  Keys are modelled
as `Option`-valued fields, `none` meaning "absent". -/

/-- The four story-related session keys, each possibly absent. -/
structure SessionKeys where
  app_stage : Option String
  world_bible : Option (Option String)
  story_chapters : Option (List Chapter)
  latest_choices : Option (List String)
deriving DecidableEq

/-- The restart button handler (lines 287-292): delete every key in
`['app_stage', 'world_bible', 'story_chapters', 'latest_choices']`. -/
def restart_clicked (_ : SessionKeys) : SessionKeys :=
  { app_stage := none, world_bible := none,
    story_chapters := none, latest_choices := none }

/-- Lines 216-220: on each rerun, if `app_stage` is not in the session
state, set all four keys to their initial values. -/
def session_init_if_missing (r : SessionKeys) : SessionKeys :=
  if r.app_stage = none then
    { app_stage := some ("world_forge"), world_bible := some none,
      story_chapters := some ([]), latest_choices := some ([]) }
  else r

/-- The fully-initialized fresh session. -/
def initial_keys : SessionKeys :=
  { app_stage := some ("world_forge"), world_bible := some none,
    story_chapters := some ([]), latest_choices := some ([]) }

/-! ### Reachability

The states a session can be in after any sequence of user actions,
against arbitrary per-submission environments.  The restart button is
only rendered outside `world_forge` (line 286); by
`session_init_if_missing (restart_clicked r) = initial_keys` it lands
the session back at `initial_state`. -/

/-- Reachable session story states. -/
inductive Reachable : StoryState → Prop where
  | init : Reachable initial_state
  | forge (s : StoryState) (bible : String) :
      Reachable s → s.app_stage = ("world_forge") →
      Reachable (world_forge_submit bible s)
  | start (s : StoryState) (env : Env) (p : String) :
      Reachable s → s.app_stage = ("story_start") →
      Reachable (story_start_submit env p s).state
  | cycle (s : StoryState) (env : Env) (i : Nat) :
      Reachable s → s.app_stage = ("story_cycle") →
      Reachable (story_cycle_submit env i s).state
  | restart (s : StoryState) :
      Reachable s → s.app_stage ≠ ("world_forge") →
      Reachable initial_state

/-! ### Concrete fixtures used by witnesses and counterexamples -/

/-- An environment whose narrative backend replies with text the JSON
decoder rejects, and whose Stability key is missing. -/
def cex_fail_env : Env :=
  { backend := fun _ => GenOutcome.returned ("garbled reply"),
    parse := fun _ => none,
    stability := fun _ => ImgOutcome.unconfigured }

/-- A well-formed chapter response. -/
def ok_resp : ChapterResponse :=
  { narrative_chapter := ("A new chapter."),
    next_choices := [("A"), ("B"), ("C")],
    image_prompt := ("a castle, sunset") }

/-- An environment where every external call succeeds. -/
def ok_env : Env :=
  { backend := fun _ => GenOutcome.returned ("reply"),
    parse := fun _ => some ok_resp,
    stability := fun _ => ImgOutcome.ok { data := ("img") } }

/-- An environment where narrative generation succeeds but the Stability
call is rejected upstream. -/
def degraded_env : Env :=
  { backend := fun _ => GenOutcome.returned ("reply"),
    parse := fun _ => some ok_resp,
    stability := fun _ => ImgOutcome.httpError 500 ("upstream error") }

/-- A narrative backend whose call raises before any response exists. -/
def raise_backend : String → GenOutcome := fun _ => GenOutcome.raised

/-- The state right after a successful world-forge submission. -/
def start_state_wb : StoryState :=
  { app_stage := ("story_start"), world_bible := some ("wb"),
    story_chapters := [], latest_choices := [] }

/-- The state after a story-start submission whose narrative call failed. -/
def c3_state : StoryState :=
  (story_start_submit cex_fail_env ("Once upon a time")
    (world_forge_submit ("wb") initial_state)).state

/-- The state after a fully successful story-start submission. -/
def reached_cycle_state : StoryState :=
  (story_start_submit ok_env ("Once") (world_forge_submit ("wb") initial_state)).state

/-- A small story-cycle state with one chapter and one pending choice. -/
def cyc_state : StoryState :=
  { app_stage := ("story_cycle"), world_bible := some ("wb"),
    story_chapters := [{ text := ("Once"), image := none }],
    latest_choices := [("A")] }

/-- A placeholder backend request record. -/
def empty_call : GenCall :=
  { story_context := (""), world_bible := (""), user_choice := (""), prompt := ("") }

/-- The request made by a story-cycle submission on `cyc_state`. -/
def cyc_call8 : GenCall := (story_cycle_submit ok_env 0 cyc_state).calls.headD empty_call

/-- The request made by a story-cycle submission with an out-of-range
radio index on `cyc_state`. -/
def cyc_call9 : GenCall := (story_cycle_submit ok_env 5 cyc_state).calls.headD empty_call

/-! ### Escaping predicate for the narration text -/

/-- Every single or double quote in the list is immediately preceded by a
backslash: the list is a sequence of non-quote characters and
backslash-quote pairs. -/
inductive EscapedQuotes : List Char → Prop where
  | nil : EscapedQuotes []
  | other (c : Char) (l : List Char) :
      c ≠ sq → c ≠ dq → EscapedQuotes l → EscapedQuotes (c :: l)
  | pair (q : Char) (l : List Char) :
      (q = sq ∨ q = dq) → EscapedQuotes l → EscapedQuotes (bs :: q :: l)

/-! ## Lemmas about the Python string primitives -/

theorem pyReplaceFuel_ge (o : Char) (os new : List Char) :
    ∀ (f1 : Nat), ∀ (f2 : Nat) (l : List Char), l.length ≤ f1 → l.length ≤ f2 →
      pyReplaceFuel o os new f1 l = pyReplaceFuel o os new f2 l := by
  intro f1
  induction f1 with
  | zero =>
    intro f2 l h1 _
    cases l with
    | nil => cases f2 <;> rfl
    | cons c cs => simp at h1
  | succ f ih =>
    intro f2 l h1 h2
    cases l with
    | nil => cases f2 <;> rfl
    | cons c cs =>
      cases f2 with
      | zero => simp at h2
      | succ f2a =>
        simp only [pyReplaceFuel]
        by_cases hp : leadsWith (o :: os) (c :: cs) = true
        · simp only [hp, if_true]
          have hlen : (cs.drop os.length).length ≤ cs.length := by
            simp [List.length_drop]
          have h1a : (cs.drop os.length).length ≤ f := by
            simp only [List.length_cons] at h1; omega
          have h2a : (cs.drop os.length).length ≤ f2a := by
            simp only [List.length_cons] at h2; omega
          rw [ih f2a _ h1a h2a]
        · simp only [hp, Bool.false_eq_true, if_false]
          have h1a : cs.length ≤ f := by
            simp only [List.length_cons] at h1; omega
          have h2a : cs.length ≤ f2a := by
            simp only [List.length_cons] at h2; omega
          rw [ih f2a _ h1a h2a]

theorem pyReplace_cons (o : Char) (os new : List Char) (c : Char) (cs : List Char) :
    pyReplace o os new (c :: cs) =
      if leadsWith (o :: os) (c :: cs) then
        new ++ pyReplace o os new (cs.drop os.length)
      else
        c :: pyReplace o os new cs := by
  unfold pyReplace
  simp only [List.length_cons, pyReplaceFuel]
  by_cases hp : leadsWith (o :: os) (c :: cs) = true
  · simp only [hp, if_true]
    rw [pyReplaceFuel_ge o os new cs.length (cs.drop os.length).length _
      (by simp [List.length_drop]) (le_refl _)]
  · simp only [hp, Bool.false_eq_true, if_false]

theorem leadsWith_self_append (p rest : List Char) : leadsWith p (p ++ rest) = true := by
  induction p with
  | nil => rfl
  | cons x xs ih => simp [leadsWith, ih]

theorem leadsWith_cons_ne (o : Char) (os : List Char) (c : Char) (cs : List Char)
    (h : c ≠ o) : leadsWith (o :: os) (c :: cs) = false := by
  have : (o == c) = false := by
    simp [beq_iff_eq]
    exact fun h2 => absurd h2.symm h
  simp [leadsWith, this]

theorem pyReplace_cons_ne (o : Char) (os new : List Char) (c : Char) (cs : List Char)
    (h : c ≠ o) : pyReplace o os new (c :: cs) = c :: pyReplace o os new cs := by
  rw [pyReplace_cons, leadsWith_cons_ne o os c cs h]
  simp

theorem pyReplace_pattern (o : Char) (os new rest : List Char) :
    pyReplace o os new ((o :: os) ++ rest) = new ++ pyReplace o os new rest := by
  have hshape : (o :: os) ++ rest = o :: (os ++ rest) := rfl
  rw [hshape, pyReplace_cons]
  have hl : leadsWith (o :: os) (o :: (os ++ rest)) = true := by
    have := leadsWith_self_append (o :: os) rest
    simpa using this
  rw [hl, if_pos rfl, List.drop_left]

theorem pyReplace_no_occ_append (o : Char) (os new : List Char) (l1 l2 : List Char)
    (h : ∀ c ∈ l1, c ≠ o) :
    pyReplace o os new (l1 ++ l2) = l1 ++ pyReplace o os new l2 := by
  induction l1 with
  | nil => simp
  | cons c cs ih =>
    have hc : c ≠ o := h c (List.mem_cons_self c cs)
    have hrest : ∀ x ∈ cs, x ≠ o := fun x hx => h x (List.mem_cons_of_mem c hx)
    simp only [List.cons_append]
    rw [pyReplace_cons_ne o os new c (cs ++ l2) hc, ih hrest]

theorem pyReplace_single_cons (o : Char) (new : List Char) (c : Char) (cs : List Char) :
    pyReplace o [] new (c :: cs) =
      (if c = o then new else [c]) ++ pyReplace o [] new cs := by
  by_cases h : c = o
  · subst h
    have := pyReplace_pattern c [] new cs
    simpa using this
  · rw [pyReplace_cons_ne o [] new c cs h]
    simp [h]

theorem pyReplace_single_append (o : Char) (new : List Char) (a b : List Char) :
    pyReplace o [] new (a ++ b) = pyReplace o [] new a ++ pyReplace o [] new b := by
  induction a with
  | nil => rfl
  | cons c cs ih =>
    simp only [List.cons_append]
    rw [pyReplace_single_cons, pyReplace_single_cons, ih, List.append_assoc]

theorem pyStripList_nonws_ends (c d : Char) (m : List Char)
    (hc : c.isWhitespace = false) (hd : d.isWhitespace = false) :
    pyStripList (c :: (m ++ [d])) = c :: (m ++ [d]) := by
  unfold pyStripList
  rw [List.dropWhile_cons]
  simp only [hc, Bool.false_eq_true, if_false]
  have hrev : (c :: (m ++ [d])).reverse = d :: (m.reverse ++ [c]) := by simp
  rw [hrev, List.dropWhile_cons]
  simp only [hd, Bool.false_eq_true, if_false]
  simp

theorem mem_of_mem_pyStripList (a : Char) (l : List Char)
    (h : a ∈ pyStripList l) : a ∈ l := by
  unfold pyStripList at h
  rw [List.mem_reverse] at h
  have h2 := (List.dropWhile_sublist
    (l := (l.dropWhile Char.isWhitespace).reverse) (p := Char.isWhitespace)).subset h
  rw [List.mem_reverse] at h2
  exact (List.dropWhile_sublist (l := l) (p := Char.isWhitespace)).subset h2

/-! ## Lemmas about the quote-escaping predicate -/

theorem escaped_of_append (zs : List Char) (h : EscapedQuotes zs) :
    ∀ (xs ys : List Char), zs = xs ++ ys → EscapedQuotes xs := by
  induction h with
  | nil =>
    intro xs ys heq
    rcases List.append_eq_nil.mp heq.symm with ⟨h1, _⟩
    rw [h1]
    exact EscapedQuotes.nil
  | other c l hsq hdq _ ih =>
    intro xs ys heq
    cases xs with
    | nil => exact EscapedQuotes.nil
    | cons x xs2 =>
      rw [List.cons_append] at heq
      injection heq with h1 h2
      subst h1
      exact EscapedQuotes.other c xs2 hsq hdq (ih xs2 ys h2)
  | pair q l hq _ ih =>
    intro xs ys heq
    cases xs with
    | nil => exact EscapedQuotes.nil
    | cons x xs2 =>
      rw [List.cons_append] at heq
      injection heq with h1 h2
      cases xs2 with
      | nil =>
        subst h1
        exact EscapedQuotes.other bs [] (by decide) (by decide) EscapedQuotes.nil
      | cons y xs3 =>
        rw [List.cons_append] at h2
        injection h2 with h3 h4
        subst h1
        subst h3
        exact EscapedQuotes.pair q xs3 hq (ih xs3 ys h4)

theorem escaped_dropWhile_ws (l : List Char) (h : EscapedQuotes l) :
    EscapedQuotes (l.dropWhile Char.isWhitespace) := by
  induction h with
  | nil => exact EscapedQuotes.nil
  | other c l hsq hdq hl ih =>
    rw [List.dropWhile_cons]
    by_cases hw : c.isWhitespace = true
    · simp only [hw, if_true]
      exact ih
    · simp only [hw, if_false]
      exact EscapedQuotes.other c l hsq hdq hl
  | pair q l hq hl _ =>
    rw [List.dropWhile_cons]
    have hw : bs.isWhitespace = false := by decide
    simp only [hw, Bool.false_eq_true, if_false]
    exact EscapedQuotes.pair q l hq hl

theorem escaped_pyStripList (l : List Char) (h : EscapedQuotes l) :
    EscapedQuotes (pyStripList l) := by
  unfold pyStripList
  have h1 : EscapedQuotes (l.dropWhile Char.isWhitespace) := escaped_dropWhile_ws l h
  have hsplit : l.dropWhile Char.isWhitespace =
      ((l.dropWhile Char.isWhitespace).reverse.dropWhile Char.isWhitespace).reverse ++
      ((l.dropWhile Char.isWhitespace).reverse.takeWhile Char.isWhitespace).reverse := by
    conv_lhs => rw [← List.reverse_reverse (l.dropWhile Char.isWhitespace),
      ← List.takeWhile_append_dropWhile (p := Char.isWhitespace)
        (l := (l.dropWhile Char.isWhitespace).reverse)]
    rw [List.reverse_append]
  exact escaped_of_append _ (hsplit ▸ h1) _ _ rfl

/-! ## Lemmas about the narrative adapter and the submission handlers -/

theorem generate_story_chapter_call (b : String → GenOutcome)
    (p : String → Option ChapterResponse) (ctx wb ch : String) :
    (generate_story_chapter b p ctx wb ch).call =
      { story_context := ctx, world_bible := wb, user_choice := ch,
        prompt := chapter_prompt ch ctx wb } := by
  simp only [generate_story_chapter]
  split
  · rfl
  · split <;> rfl

theorem generate_story_chapter_result (b : String → GenOutcome)
    (p : String → Option ChapterResponse) (ctx wb ch : String) :
    (generate_story_chapter b p ctx wb ch).result =
      match b (chapter_prompt ch ctx wb) with
      | GenOutcome.raised => GenResult.uncaught (PyExn.unboundLocal ("response"))
      | GenOutcome.returned raw =>
        match p (clean_json_string raw) with
        | some data => GenResult.ok data
        | none => GenResult.failed raw := by
  simp only [generate_story_chapter]
  split
  · rfl
  · split <;> rfl

theorem generate_story_chapter_displayed (b : String → GenOutcome)
    (p : String → Option ChapterResponse) (ctx wb ch : String) :
    (generate_story_chapter b p ctx wb ch).displayed =
      match b (chapter_prompt ch ctx wb) with
      | GenOutcome.raised => [gen_error_msg]
      | GenOutcome.returned raw =>
        match p (clean_json_string raw) with
        | some _ => []
        | none => [gen_error_msg, raw] := by
  simp only [generate_story_chapter]
  split
  · rfl
  · split <;> rfl

theorem set_first_image_length (img : Option PILImage) (l : List Chapter) :
    (set_first_image img l).length = l.length := by
  cases l <;> rfl

theorem getD_mem_of_ne_nil (l : List String) (i : Nat) (d : String)
    (hd : d ∈ l) : l.getD i d ∈ l := by
  rw [List.getD_eq_getElem?_getD]
  cases h : l[i]? with
  | none => simpa using hd
  | some a =>
    have := List.getElem?_mem h
    simpa using this

theorem cycle_apply_ok (env : Env) (s : StoryState) (g : GenOut)
    (data : ChapterResponse) (hg : g.result = GenResult.ok data) :
    cycle_apply env s g =
      { state := { s with
          story_chapters := s.story_chapters ++
            [{ text := data.narrative_chapter,
               image := generate_image_stability (env.stability data.image_prompt) }],
          latest_choices := data.next_choices },
        outcome := SubmitOutcome.success, calls := [g.call] } := by
  simp [cycle_apply, hg]

theorem cycle_apply_failed (env : Env) (s : StoryState) (g : GenOut)
    (raw : String) (hg : g.result = GenResult.failed raw) :
    cycle_apply env s g =
      { state := s, outcome := SubmitOutcome.genFailed, calls := [g.call] } := by
  simp [cycle_apply, hg]

theorem cycle_apply_uncaught (env : Env) (s : StoryState) (g : GenOut)
    (e : PyExn) (hg : g.result = GenResult.uncaught e) :
    cycle_apply env s g =
      { state := s, outcome := SubmitOutcome.crashed, calls := [g.call] } := by
  simp [cycle_apply, hg]

theorem cycle_apply_success_inv (env : Env) (s : StoryState) (g : GenOut)
    (h : (cycle_apply env s g).outcome = SubmitOutcome.success) :
    ∃ data, g.result = GenResult.ok data := by
  cases hg : g.result with
  | ok data => exact ⟨data, rfl⟩
  | failed raw => rw [cycle_apply_failed env s g raw hg] at h; simp at h
  | uncaught e => rw [cycle_apply_uncaught env s g e hg] at h; simp at h

theorem start_apply_ok (env : Env) (s1 : StoryState) (g : GenOut)
    (data : ChapterResponse) (hg : g.result = GenResult.ok data) :
    start_apply env s1 g =
      { state := { s1 with
          story_chapters :=
            set_first_image (generate_image_stability (env.stability data.image_prompt))
              s1.story_chapters ++
            [{ text := data.narrative_chapter, image := none }],
          latest_choices := data.next_choices,
          app_stage := ("story_cycle") },
        outcome := SubmitOutcome.success, calls := [g.call] } := by
  simp [start_apply, hg]

theorem start_apply_failed (env : Env) (s1 : StoryState) (g : GenOut)
    (raw : String) (hg : g.result = GenResult.failed raw) :
    start_apply env s1 g =
      { state := s1, outcome := SubmitOutcome.genFailed, calls := [g.call] } := by
  simp [start_apply, hg]

theorem start_apply_uncaught (env : Env) (s1 : StoryState) (g : GenOut)
    (e : PyExn) (hg : g.result = GenResult.uncaught e) :
    start_apply env s1 g =
      { state := s1, outcome := SubmitOutcome.crashed, calls := [g.call] } := by
  simp [start_apply, hg]

theorem start_apply_success_inv (env : Env) (s1 : StoryState) (g : GenOut)
    (h : (start_apply env s1 g).outcome = SubmitOutcome.success) :
    ∃ data, g.result = GenResult.ok data := by
  cases hg : g.result with
  | ok data => exact ⟨data, rfl⟩
  | failed raw => rw [start_apply_failed env s1 g raw hg] at h; simp at h
  | uncaught e => rw [start_apply_uncaught env s1 g e hg] at h; simp at h

theorem cycle_apply_state_not_success (env : Env) (s : StoryState) (g : GenOut)
    (h : (cycle_apply env s g).outcome = SubmitOutcome.genFailed ∨
         (cycle_apply env s g).outcome = SubmitOutcome.crashed) :
    (cycle_apply env s g).state = s := by
  cases hg : g.result with
  | ok data =>
    rw [cycle_apply_ok env s g data hg] at h
    rcases h with h | h <;> simp at h
  | failed raw => rw [cycle_apply_failed env s g raw hg]
  | uncaught e => rw [cycle_apply_uncaught env s g e hg]

theorem start_apply_state_not_success (env : Env) (s1 : StoryState) (g : GenOut)
    (h : (start_apply env s1 g).outcome = SubmitOutcome.genFailed ∨
         (start_apply env s1 g).outcome = SubmitOutcome.crashed) :
    (start_apply env s1 g).state = s1 := by
  cases hg : g.result with
  | ok data =>
    rw [start_apply_ok env s1 g data hg] at h
    rcases h with h | h <;> simp at h
  | failed raw => rw [start_apply_failed env s1 g raw hg]
  | uncaught e => rw [start_apply_uncaught env s1 g e hg]

/-! ## Claim theorems -/

/-- C4: in `generate_story_chapter`, when the text-generation backend call
itself raises (no response object is ever received), the `except` handler
dereferences the local variable `response`, which is unbound in that
execution, so an `UnboundLocalError` escapes; the documented
recover-and-return-`None` error path is only reached when a response was
received and only the subsequent parsing failed. -/
theorem C4_unbound_response (backend : String → GenOutcome)
    (parse : String → Option ChapterResponse) (ctx wb choice : String) :
    (backend (chapter_prompt choice ctx wb) = GenOutcome.raised →
      (generate_story_chapter backend parse ctx wb choice).result =
        GenResult.uncaught (PyExn.unboundLocal ("response"))) ∧
    (∀ raw : String,
      (generate_story_chapter backend parse ctx wb choice).result =
        GenResult.failed raw →
      backend (chapter_prompt choice ctx wb) = GenOutcome.returned raw) := by
  constructor
  · intro h
    simp only [generate_story_chapter, h]
  · intro raw h
    rw [generate_story_chapter_result] at h
    cases hb : backend (chapter_prompt choice ctx wb) with
    | raised => rw [hb] at h; simp at h
    | returned r =>
      rw [hb] at h
      cases hp : parse (clean_json_string r) with
      | some d => simp [hp] at h
      | none =>
        simp [hp] at h
        rw [h]

/-- C4 witness: a backend that raises produces the escaping
`UnboundLocalError` for the variable `response`. -/
theorem C4_witness :
    (generate_story_chapter raise_backend (fun _ => none)
      ("ctx") ("wb") ("go")).result =
      GenResult.uncaught (PyExn.unboundLocal ("response")) :=
  (C4_unbound_response raise_backend (fun _ => none) ("ctx") ("wb") ("go")).1 rfl

/-- C2: every successful story-cycle submission grows `story_chapters` by
exactly one, and every successful story-start submission (in particular
the very first, from an empty chapter list) grows it by exactly two: the
opening sentence plus the generated continuation. -/
theorem C2_chapter_growth :
    (∀ (env : Env) (i : Nat) (s : StoryState),
      (story_cycle_submit env i s).outcome = SubmitOutcome.success →
      (story_cycle_submit env i s).state.story_chapters.length =
        s.story_chapters.length + 1) ∧
    (∀ (env : Env) (p : String) (s : StoryState),
      (story_start_submit env p s).outcome = SubmitOutcome.success →
      (story_start_submit env p s).state.story_chapters.length =
        s.story_chapters.length + 2) := by
  constructor
  · intro env i s h
    rcases s with ⟨stage, wb, chs, lcs⟩
    cases lcs with
    | nil => simp [story_cycle_submit] at h
    | cons c0 rest =>
      simp only [story_cycle_submit] at h ⊢
      obtain ⟨data, hg⟩ := cycle_apply_success_inv _ _ _ h
      rw [cycle_apply_ok _ _ _ data hg]
      simp
  · intro env p s h
    by_cases hp : p = ("")
    · simp [story_start_submit, hp] at h
    · simp only [story_start_submit, if_neg hp] at h ⊢
      obtain ⟨data, hg⟩ := start_apply_success_inv _ _ _ h
      rw [start_apply_ok _ _ _ data hg]
      simp [set_first_image_length]

/-- C2 witness: concrete successful submissions growing the chapter list
by one (cycle) and by two (start). -/
theorem C2_witness :
    (story_cycle_submit ok_env 0 cyc_state).state.story_chapters.length =
      cyc_state.story_chapters.length + 1 ∧
    (story_start_submit ok_env ("Once") start_state_wb).state.story_chapters.length =
      start_state_wb.story_chapters.length + 2 :=
  ⟨C2_chapter_growth.1 ok_env 0 cyc_state (by decide),
   C2_chapter_growth.2 ok_env ("Once") start_state_wb (by decide)⟩

/-- C1 counterexample: a story-start submission whose narrative call
fails still appends the opening-sentence chapter, so the submission is
not atomic as claimed. -/
theorem C1_counterexample :
    (story_start_submit cex_fail_env ("Once upon a time") start_state_wb).outcome =
      SubmitOutcome.genFailed ∧
    (story_start_submit cex_fail_env ("Once upon a time") start_state_wb).state.story_chapters ≠
      start_state_wb.story_chapters := by
  constructor
  · decide
  · decide

/-- C1 (amended): a story-cycle submission whose narrative call fails (or
crashes) leaves the state completely unchanged; a story-start submission
whose narrative call fails (or crashes) has already appended the
opening-sentence chapter (with no image) and changes nothing else —
`latest_choices`, `app_stage` and `world_bible` are untouched. -/
theorem C1_failure_isolation :
    (∀ (env : Env) (i : Nat) (s : StoryState),
      ((story_cycle_submit env i s).outcome = SubmitOutcome.genFailed ∨
       (story_cycle_submit env i s).outcome = SubmitOutcome.crashed) →
      (story_cycle_submit env i s).state = s) ∧
    (∀ (env : Env) (p : String) (s : StoryState),
      ((story_start_submit env p s).outcome = SubmitOutcome.genFailed ∨
       (story_start_submit env p s).outcome = SubmitOutcome.crashed) →
      (story_start_submit env p s).state =
        { s with story_chapters :=
            s.story_chapters ++ [{ text := p, image := none }] }) := by
  constructor
  · intro env i s h
    rcases s with ⟨stage, wb, chs, lcs⟩
    cases lcs with
    | nil => simp [story_cycle_submit] at h
    | cons c0 rest =>
      simp only [story_cycle_submit] at h ⊢
      exact cycle_apply_state_not_success _ _ _ h
  · intro env p s h
    by_cases hp : p = ("")
    · simp [story_start_submit, hp] at h
    · simp only [story_start_submit, if_neg hp] at h ⊢
      exact start_apply_state_not_success _ _ _ h

/-- C1 witness: a concrete failed story-start submission whose post-state
is exactly the pre-state plus the opening chapter. -/
theorem C1_witness :
    (story_start_submit cex_fail_env ("Tale") start_state_wb).state =
      { start_state_wb with story_chapters :=
          start_state_wb.story_chapters ++ [{ text := ("Tale"), image := none }] } :=
  C1_failure_isolation.2 cex_fail_env ("Tale") start_state_wb (Or.inl (by decide))

theorem cycle_apply_calls (env : Env) (s : StoryState) (g : GenOut) :
    (cycle_apply env s g).calls = [g.call] := by
  cases hg : g.result <;> simp [cycle_apply, hg]

theorem start_apply_calls (env : Env) (s1 : StoryState) (g : GenOut) :
    (start_apply env s1 g).calls = [g.call] := by
  cases hg : g.result <;> simp [start_apply, hg]

theorem string_append_assoc (a b c : String) : a ++ b ++ c = a ++ (b ++ c) := by
  rcases a with ⟨da⟩
  rcases b with ⟨db⟩
  rcases c with ⟨dc⟩
  show String.mk (da ++ db ++ dc) = String.mk (da ++ (db ++ dc))
  rw [List.append_assoc]

theorem generate_image_stability_of_not_ok (o : ImgOutcome)
    (h : ∀ img, o ≠ ImgOutcome.ok img) : generate_image_stability o = none := by
  cases o with
  | ok img => exact absurd rfl (h img)
  | unconfigured => rfl
  | httpError status body => rfl
  | missingArtifact => rfl
  | otherException msg => rfl

/-- C5: when the illustration call fails for any reason (missing
credential, upstream rejection, malformed payload, any other exception),
`generate_image_stability` yields `None`, and a successful submission
still appends its chapter, carrying `image = none`; illustration failure
never aborts the chapter-append step. -/
theorem C5_illustration_never_aborts :
    (∀ o : ImgOutcome, (∀ img, o ≠ ImgOutcome.ok img) →
      generate_image_stability o = none) ∧
    (∀ (env : Env) (i : Nat) (s : StoryState),
      (∀ q img, env.stability q ≠ ImgOutcome.ok img) →
      (story_cycle_submit env i s).outcome = SubmitOutcome.success →
      ∃ t, (story_cycle_submit env i s).state.story_chapters =
        s.story_chapters ++ [{ text := t, image := none }]) ∧
    (∀ (env : Env) (p : String) (s : StoryState),
      (∀ q img, env.stability q ≠ ImgOutcome.ok img) →
      s.story_chapters = [] →
      (story_start_submit env p s).outcome = SubmitOutcome.success →
      ∃ t, (story_start_submit env p s).state.story_chapters =
        [{ text := p, image := none }, { text := t, image := none }]) := by
  refine ⟨fun o h => generate_image_stability_of_not_ok o h, ?_, ?_⟩
  · intro env i s hfail h
    rcases s with ⟨stage, wb, chs, lcs⟩
    cases lcs with
    | nil => simp [story_cycle_submit] at h
    | cons c0 rest =>
      simp only [story_cycle_submit] at h ⊢
      obtain ⟨data, hg⟩ := cycle_apply_success_inv _ _ _ h
      refine ⟨data.narrative_chapter, ?_⟩
      rw [cycle_apply_ok _ _ _ data hg]
      simp [generate_image_stability_of_not_ok _
        (fun img => hfail data.image_prompt img)]
  · intro env p s hfail hnil h
    by_cases hp : p = ("")
    · simp [story_start_submit, hp] at h
    · simp only [story_start_submit, if_neg hp] at h ⊢
      obtain ⟨data, hg⟩ := start_apply_success_inv _ _ _ h
      refine ⟨data.narrative_chapter, ?_⟩
      rw [start_apply_ok _ _ _ data hg]
      simp [hnil, set_first_image,
        generate_image_stability_of_not_ok _
          (fun img => hfail data.image_prompt img)]

/-- C5 witness: with an upstream-rejecting Stability backend, concrete
successful cycle and start submissions still append their chapters with
no image. -/
theorem C5_witness :
    generate_image_stability (ImgOutcome.httpError 500 ("upstream error")) = none ∧
    (∃ t, (story_cycle_submit degraded_env 0 cyc_state).state.story_chapters =
      cyc_state.story_chapters ++ [{ text := t, image := none }]) ∧
    (∃ t, (story_start_submit degraded_env ("Once") start_state_wb).state.story_chapters =
      [{ text := ("Once"), image := none }, { text := t, image := none }]) :=
  ⟨C5_illustration_never_aborts.1 _ (fun img h => by simp at h),
   C5_illustration_never_aborts.2.1 degraded_env 0 cyc_state
     (fun q img h => by simp [degraded_env] at h) (by decide),
   C5_illustration_never_aborts.2.2 degraded_env ("Once") start_state_wb
     (fun q img h => by simp [degraded_env] at h) rfl (by decide)⟩

/-- C7: clicking the restart button deletes all four story session keys,
and the next rerun unconditionally reinitializes them: stage back to
`world_forge`, no world bible, empty chapters, empty pending choices —
from any prior session contents. -/
theorem C7_restart_resets (r : SessionKeys) :
    session_init_if_missing (restart_clicked r) = initial_keys := rfl

/-- C8: every narrative request issued by a story-cycle submission
carries as story context the space-joined concatenation of all prior
chapter texts in order, uses the session world bible, and its prompt is
built by the fixed template, which embeds the world bible and the
submitted choice as substrings. -/
theorem C8_cycle_context (env : Env) (i : Nat) (s : StoryState) (c : GenCall)
    (hc : c ∈ (story_cycle_submit env i s).calls) :
    c.story_context = joinSp (s.story_chapters.map Chapter.text) ∧
    c.world_bible = optStr s.world_bible ∧
    c.prompt = chapter_prompt c.user_choice c.story_context c.world_bible ∧
    (∃ a b, c.prompt = a ++ optStr s.world_bible ++ b) ∧
    (∃ a b, c.prompt = a ++ c.user_choice ++ b) := by
  rcases s with ⟨stage, wb, chs, lcs⟩
  cases lcs with
  | nil => simp [story_cycle_submit] at hc
  | cons c0 rest =>
    simp only [story_cycle_submit] at hc
    rw [cycle_apply_calls] at hc
    simp only [List.mem_singleton] at hc
    subst hc
    rw [generate_story_chapter_call]
    refine ⟨rfl, rfl, rfl, ?_, ?_⟩
    · exact ⟨prompt_part1 ++ ((c0 :: rest).getD i c0) ++ prompt_part2 ++
        joinSp (List.map Chapter.text chs) ++ prompt_part3, prompt_part4, rfl⟩
    · refine ⟨prompt_part1, prompt_part2 ++ joinSp (List.map Chapter.text chs) ++
        prompt_part3 ++ optStr wb ++ prompt_part4, ?_⟩
      simp only [chapter_prompt, string_append_assoc]

set_option maxRecDepth 16384 in
/-- C8 witness: the concrete request issued on `cyc_state` has the
joined chapter texts as its context and the template-built prompt. -/
theorem C8_witness :
    cyc_call8.story_context = joinSp (cyc_state.story_chapters.map Chapter.text) ∧
    cyc_call8.world_bible = optStr cyc_state.world_bible ∧
    cyc_call8.prompt = chapter_prompt cyc_call8.user_choice cyc_call8.story_context
      cyc_call8.world_bible ∧
    (∃ a b, cyc_call8.prompt = a ++ optStr cyc_state.world_bible ++ b) ∧
    (∃ a b, cyc_call8.prompt = a ++ cyc_call8.user_choice ++ b) :=
  C8_cycle_context ok_env 0 cyc_state cyc_call8 (by decide)

/-- C9: every choice that reaches the narrative-generation pipeline in a
story-cycle submission is an element of the current `pendingChoices`
(`latest_choices`); when the submitted selection is not one of them the
radio form cannot produce it and nothing runs. -/
theorem C9_choice_membership (env : Env) (i : Nat) (s : StoryState) (c : GenCall)
    (hc : c ∈ (story_cycle_submit env i s).calls) :
    c.user_choice ∈ s.latest_choices := by
  rcases s with ⟨stage, wb, chs, lcs⟩
  cases lcs with
  | nil => simp [story_cycle_submit] at hc
  | cons c0 rest =>
    simp only [story_cycle_submit] at hc
    rw [cycle_apply_calls] at hc
    simp only [List.mem_singleton] at hc
    subst hc
    rw [generate_story_chapter_call]
    exact getD_mem_of_ne_nil (c0 :: rest) i c0 (List.mem_cons_self c0 rest)

set_option maxRecDepth 16384 in
/-- C9 witness: even with an out-of-range radio index the submitted
choice is a member of the pending choices. -/
theorem C9_witness : cyc_call9.user_choice ∈ cyc_state.latest_choices :=
  C9_choice_membership ok_env 5 cyc_state cyc_call9 (by decide)

theorem start_apply_chapters_ne_nil (env : Env) (s1 : StoryState) (g : GenOut)
    (h1 : s1.story_chapters ≠ []) :
    (start_apply env s1 g).state.story_chapters ≠ [] := by
  cases hg : g.result with
  | ok data => rw [start_apply_ok env s1 g data hg]; simp
  | failed raw => rw [start_apply_failed env s1 g raw hg]; exact h1
  | uncaught e => rw [start_apply_uncaught env s1 g e hg]; exact h1

theorem cycle_apply_chapters_ne_nil (env : Env) (s : StoryState) (g : GenOut)
    (h1 : s.story_chapters ≠ []) :
    (cycle_apply env s g).state.story_chapters ≠ [] := by
  cases hg : g.result with
  | ok data => rw [cycle_apply_ok env s g data hg]; simp
  | failed raw => rw [cycle_apply_failed env s g raw hg]; exact h1
  | uncaught e => rw [cycle_apply_uncaught env s g e hg]; exact h1

/-- C3 counterexample: after a story-start submission whose narrative
call failed, the reachable state has a non-empty chapter list (the
opening sentence was appended) while `latest_choices` is still empty, so
"pendingChoices is empty only when no chapter exists yet" is false. -/
theorem C3_counterexample :
    Reachable c3_state ∧ c3_state.story_chapters ≠ [] ∧
      c3_state.latest_choices = [] := by
  refine ⟨?_, by decide, by decide⟩
  exact Reachable.start _ cex_fail_env ("Once upon a time")
    (Reachable.forge _ ("wb") Reachable.init rfl) rfl

/-- C3 (amended): in every reachable state, non-empty `pendingChoices`
implies a non-empty chapter list; the converse fails because a failed
story-start submission leaves the opening chapter with no pending
choices. -/
theorem C3_choices_imply_chapters (s : StoryState) (h : Reachable s) :
    s.latest_choices ≠ [] → s.story_chapters ≠ [] := by
  induction h with
  | init => intro hne; exact absurd rfl hne
  | forge s bible hr hst ih => exact ih
  | start s env p hr hst ih =>
    by_cases hp : p = ("")
    · simp only [story_start_submit, if_pos hp]
      exact ih
    · intro _
      simp only [story_start_submit, if_neg hp]
      exact start_apply_chapters_ne_nil _ _ _ (by simp)
  | cycle s env i hr hst ih =>
    cases hc : s.latest_choices with
    | nil =>
      simp only [story_cycle_submit, hc]
      intro hne
      exact absurd rfl hne
    | cons c0 rest =>
      intro _
      have hch : s.story_chapters ≠ [] := ih (by rw [hc]; simp)
      simp only [story_cycle_submit, hc]
      exact cycle_apply_chapters_ne_nil env s _ hch
  | restart s hr hst => intro hne; exact absurd rfl hne

/-- C3 witness: a concrete reachable state with pending choices has a
non-empty chapter list. -/
theorem C3_witness : reached_cycle_state.story_chapters ≠ [] :=
  C3_choices_imply_chapters reached_cycle_state
    (Reachable.start _ ok_env ("Once")
      (Reachable.forge _ ("wb") Reachable.init rfl) rfl)
    (by decide)

theorem clean_json_string_as_list (s : String) :
    clean_json_string s = String.mk (pyStripList (pyReplace btick [btick, btick] []
      (pyReplace btick [btick, btick, 'j', 's', 'o', 'n'] []
        (pyStripList s.toList)))) := rfl

theorem clean_list_fenced (body : List Char) (hb : btick ∉ body) :
    pyStripList (pyReplace btick [btick, btick] []
      (pyReplace btick [btick, btick, 'j', 's', 'o', 'n'] []
        (pyStripList (fo_list ++ body ++ fc_list)))) = pyStripList body := by
  have hno : ∀ c ∈ body, c ≠ btick := fun c hcm he => hb (he ▸ hcm)
  have hshape : fo_list ++ body ++ fc_list =
      btick :: (([btick, btick, 'j', 's', 'o', 'n'] ++ body ++ [btick, btick]) ++ [btick]) := by
    simp [fo_list, fc_list]
  have h0 : pyStripList (fo_list ++ body ++ fc_list) = fo_list ++ body ++ fc_list := by
    rw [hshape, pyStripList_nonws_ends btick btick _ (by decide) (by decide)]
  rw [h0, List.append_assoc]
  have h1 : fo_list ++ (body ++ fc_list) =
      (btick :: [btick, btick, 'j', 's', 'o', 'n']) ++ (body ++ fc_list) := rfl
  rw [h1, pyReplace_pattern, List.nil_append,
    pyReplace_no_occ_append _ _ _ _ _ hno,
    show pyReplace btick [btick, btick, 'j', 's', 'o', 'n'] [] fc_list = fc_list from by decide,
    pyReplace_no_occ_append _ _ _ _ _ hno,
    show pyReplace btick [btick, btick] [] fc_list = [] from by decide,
    List.append_nil]

/-- C6: `generate_story_chapter` strips the surrounding markdown code
fence from the reply before JSON parsing (for a fence-free body,
cleaning the fenced reply yields exactly the stripped body), and when
parsing fails it returns the failure result (`None`) while displaying
the original raw reply text for diagnosis rather than dropping it. -/
theorem C6_fence_and_raw :
    (∀ body : String, btick ∉ body.toList →
      clean_json_string (("```json") ++ body ++ ("```")) = pyStrip body) ∧
    (∀ (backend : String → GenOutcome) (parse : String → Option ChapterResponse)
      (ctx wb ch raw : String),
      backend (chapter_prompt ch ctx wb) = GenOutcome.returned raw →
      parse (clean_json_string raw) = none →
      (generate_story_chapter backend parse ctx wb ch).result = GenResult.failed raw ∧
      raw ∈ (generate_story_chapter backend parse ctx wb ch).displayed) := by
  constructor
  · intro body hb
    rw [clean_json_string_as_list]
    have hlist : (("```json") ++ body ++ ("```")).toList =
        fo_list ++ body.toList ++ fc_list := rfl
    rw [hlist, clean_list_fenced body.toList hb]
    rfl
  · intro backend parse ctx wb ch raw hb hp
    constructor
    · rw [generate_story_chapter_result, hb]
      simp [hp]
    · rw [generate_story_chapter_displayed, hb]
      simp [hp]

/-- C6 witness: cleaning a concretely fenced reply strips the fence, and
a concrete unparsable reply yields the failure result with the raw text
displayed. -/
theorem C6_witness :
    clean_json_string (("```json") ++ ("hello world") ++ ("```")) = pyStrip ("hello world") ∧
    ((generate_story_chapter cex_fail_env.backend cex_fail_env.parse
        ("c") ("w") ("u")).result = GenResult.failed ("garbled reply") ∧
      ("garbled reply") ∈ (generate_story_chapter cex_fail_env.backend cex_fail_env.parse
        ("c") ("w") ("u")).displayed) :=
  ⟨C6_fence_and_raw.1 ("hello world") (by decide),
   C6_fence_and_raw.2 cex_fail_env.backend cex_fail_env.parse
     ("c") ("w") ("u") ("garbled reply") rfl rfl⟩

theorem pyReplace_empty (o : Char) (os new : List Char) :
    pyReplace o os new [] = [] := rfl

theorem tts_replace_chain_append (a b : List Char) :
    tts_replace_chain (a ++ b) = tts_replace_chain a ++ tts_replace_chain b := by
  simp [tts_replace_chain, pyReplace_single_append]

theorem tts_replace_chain_cons (c : Char) (l : List Char) :
    tts_replace_chain (c :: l) = tts_replace_chain [c] ++ tts_replace_chain l := by
  have h : c :: l = [c] ++ l := rfl
  rw [h, tts_replace_chain_append]

theorem escaped_tts_chain (l : List Char) :
    EscapedQuotes (tts_replace_chain l) ∧ ('\n') ∉ tts_replace_chain l := by
  induction l with
  | nil =>
    refine ⟨EscapedQuotes.nil, ?_⟩
    simp [tts_replace_chain, pyReplace_empty]
  | cons c l ih =>
    rw [tts_replace_chain_cons]
    by_cases h1 : c = sq
    · subst h1
      rw [show tts_replace_chain [sq] = [bs, sq] from by decide]
      refine ⟨EscapedQuotes.pair sq _ (Or.inl rfl) ih.1, ?_⟩
      intro hm
      rcases List.mem_append.mp hm with hm | hm
      · exact absurd hm (by decide)
      · exact ih.2 hm
    · by_cases h2 : c = dq
      · subst h2
        rw [show tts_replace_chain [dq] = [bs, dq] from by decide]
        refine ⟨EscapedQuotes.pair dq _ (Or.inr rfl) ih.1, ?_⟩
        intro hm
        rcases List.mem_append.mp hm with hm | hm
        · exact absurd hm (by decide)
        · exact ih.2 hm
      · by_cases h3 : c = ('\n')
        · subst h3
          rw [show tts_replace_chain [('\n')] = [' '] from by decide]
          refine ⟨EscapedQuotes.other (' ') _ (by decide) (by decide) ih.1, ?_⟩
          intro hm
          rcases List.mem_append.mp hm with hm | hm
          · exact absurd hm (by decide)
          · exact ih.2 hm
        · have hc : tts_replace_chain [c] = [c] := by
            simp [tts_replace_chain, pyReplace_single_cons, pyReplace_empty, h1, h2, h3]
          rw [hc]
          refine ⟨EscapedQuotes.other c _ h1 h2 ih.1, ?_⟩
          intro hm
          rcases List.mem_append.mp hm with hm | hm
          · rw [List.mem_singleton] at hm
            exact h3 hm.symm
          · exact ih.2 hm

/-- C10: the narration escaping neutralizes quotes and newlines before
the text is embedded into the script: in `tts_safe_text text` every
single or double quote is immediately preceded by a backslash and no raw
newline from the input remains. -/
theorem C10_tts_escaping (text : String) :
    EscapedQuotes (tts_safe_text text).toList ∧
    ('\n') ∉ (tts_safe_text text).toList := by
  have h := escaped_tts_chain text.toList
  have hl : (tts_safe_text text).toList = pyStripList (tts_replace_chain text.toList) := rfl
  rw [hl]
  exact ⟨escaped_pyStripList _ h.1,
    fun hm => h.2 (mem_of_mem_pyStripList _ _ hm)⟩

end Storyteller
